import Mathlib

/-
Verification of the single-route configuration protocol of
`src/router/builder/single.rs` (trait `DefineSingleRoute`).

The source file declares a trait with four operations, each taking the
builder receiver `self` by value:
  - `to<H>(self, handler: H)` with `H: Handler + Copy + Send + Sync + 'static`
  - `to_new_handler<NH>(self, new_handler: NH)` with `NH: NewHandler + 'static`
  - `with_path_extractor<NPE>(self) -> Output` with
    `NPE: PathExtractor + Send + Sync + 'static`, `Self: ReplacePathExtractor<NPE>`,
    `Self::Output: DefineSingleRoute`
  - `with_query_string_extractor<NQSE>(self) -> Output` with
    `NQSE: QueryStringExtractor + Send + Sync + 'static`,
    `Self: ReplaceQueryStringExtractor<NQSE>`, `Self::Output: DefineSingleRoute`

Rust trait bounds are embedded as boolean predicates over a reified
description of a Rust type (`RustTy`): each field records whether the type
implements the corresponding trait or marker.  The builder state machine of
the spec (states `Unbound(P, Q)` and `Bound`) is embedded as an executable
step function; an operation whose bounds do not hold, or that is attempted
from `Bound`, yields `none`, modelling a Rust compile-time rejection (the
call site does not type-check), never a runtime failure.
-/

namespace Gotham

/-- Reified description of a Rust type: which traits and markers it
implements.  `handlerTr`/`newHandlerTr` are the `Handler` and `NewHandler`
capabilities, `pathExt`/`queryExt` the `PathExtractor` and
`QueryStringExtractor` capabilities, `copyTr`/`sendTr`/`syncTr` the `Copy`,
`Send` and `Sync` markers, and `staticLt` records that the type satisfies
the `'static` lifetime bound (owns no borrowed data). -/
structure RustTy where
  tyName : String
  pathExt : Bool
  queryExt : Bool
  handlerTr : Bool
  newHandlerTr : Bool
  copyTr : Bool
  sendTr : Bool
  syncTr : Bool
  staticLt : Bool
deriving DecidableEq, Repr

/-- Trait bound on `H` in `DefineSingleRoute::to`
(src/router/builder/single.rs lines 44-46):
`H: Handler + Copy + Send + Sync + 'static`. -/
def toBound (H : RustTy) : Bool :=
  H.handlerTr && H.copyTr && H.sendTr && H.syncTr && H.staticLt

/-- Modelled from the spec: the `NewHandler` trait lives in the `handler`
module, which is not part of the source under verification.  Per the spec
the factory "must be safely shareable across threads" and "its production
operation must be safe to invoke concurrently from multiple threads", so
the capability carries the `Send` and `Sync` requirements as supertraits. -/
def NewHandlerCap (T : RustTy) : Bool :=
  T.newHandlerTr && T.sendTr && T.syncTr

/-- Trait bound on `NH` in `DefineSingleRoute::to_new_handler`
(src/router/builder/single.rs lines 98-100): `NH: NewHandler + 'static`. -/
def to_new_handlerBound (NH : RustTy) : Bool :=
  NewHandlerCap NH && NH.staticLt

/-- Trait bound on `NPE` in `DefineSingleRoute::with_path_extractor`
(src/router/builder/single.rs lines 152-156):
`NPE: PathExtractor + Send + Sync + 'static`. -/
def withPathExtractorBound (T : RustTy) : Bool :=
  T.pathExt && T.sendTr && T.syncTr && T.staticLt

/-- Trait bound on `NQSE` in `DefineSingleRoute::with_query_string_extractor`
(src/router/builder/single.rs lines 208-214):
`NQSE: QueryStringExtractor + Send + Sync + 'static`. -/
def withQueryStringExtractorBound (T : RustTy) : Bool :=
  T.queryExt && T.sendTr && T.syncTr && T.staticLt

/-- Modelled from the spec: the default no-op path extractor
(`NoopPathExtractor`, `router::request::path`, not under the source tree);
always present, extracts nothing, shareable, `'static`. -/
def NoopPathExtractor : RustTy :=
  ⟨"NoopPathExtractor", true, false, false, false, true, true, true, true⟩

/-- Modelled from the spec: the default no-op query-string extractor
(`NoopQueryStringExtractor`, `router::request::query_string`, not under the
source tree). -/
def NoopQueryStringExtractor : RustTy :=
  ⟨"NoopQueryStringExtractor", false, true, false, false, true, true, true, true⟩

/-- Modelled from the spec: the concrete builder type
(`router::builder::SingleRouteBuilder`, not under the source tree).  The
spec describes it as "purely a compile-time-tagged handle into the route
registry being built", parameterized by a Path Extractor type and a
Query-String Extractor type; `delegate` stands for the out-of-scope handle
(URL pattern, registry node and pipeline chain) fixed before this protocol
runs and carried untouched through it. -/
structure SingleRouteBuilder where
  delegate : Nat
  pathExtractor : RustTy
  queryStringExtractor : RustTy
deriving DecidableEq, Repr

/-- Modelled from the spec: a fresh builder starts at `Unbound(NoOp, NoOp)`. -/
def newBuilder (d : Nat) : SingleRouteBuilder :=
  ⟨d, NoopPathExtractor, NoopQueryStringExtractor⟩

/-- Modelled from the spec: the `ReplacePathExtractor` relation
(`router::builder::replace`, not under the source tree) sends a builder
with extractor pair (P, Q) to the builder with pair (T, Q), every other
aspect unchanged. -/
def with_path_extractor (b : SingleRouteBuilder) (T : RustTy) : SingleRouteBuilder :=
  { b with pathExtractor := T }

/-- Modelled from the spec: the `ReplaceQueryStringExtractor` relation
(`router::builder::replace`, not under the source tree) sends a builder
with extractor pair (P, Q) to the builder with pair (P, T), every other
aspect unchanged. -/
def with_query_string_extractor (b : SingleRouteBuilder) (T : RustTy) : SingleRouteBuilder :=
  { b with queryStringExtractor := T }

/-- How the finalized route instantiates its handler per dispatched request:
either by copying a `Copy` handler bound via `to` (the builder wraps the
handler so every request receives an independent copy), or by invoking the
caller-supplied `NewHandler` factory bound via `to_new_handler`. -/
inductive HandlerKind where
  | copyOf (H : RustTy)
  | factory (NH : RustTy)
deriving DecidableEq, Repr

/-- The finalized route: the association, recorded into the external
router's registry, of the out-of-scope handle with the builder's current
extractor types and the bound handler. -/
structure Route where
  delegate : Nat
  pathExtractor : RustTy
  queryStringExtractor : RustTy
  handlerKind : HandlerKind
deriving DecidableEq, Repr

/-- Modelled from the spec: the effect of `DefineSingleRoute::to_new_handler`
(its signature is src/router/builder/single.rs lines 98-100; its
implementation on `SingleRouteBuilder` is not under the source tree).  It
finalizes the route with the builder's current extractor types and the
factory, and returns no value to the caller (the unit in the second
component is the Rust return value `()`). -/
def to_new_handler (b : SingleRouteBuilder) (NH : RustTy) : Route × Unit :=
  (⟨b.delegate, b.pathExtractor, b.queryStringExtractor, .factory NH⟩, ())

/-- Modelled from the spec: the effect of `DefineSingleRoute::to` (its
signature is src/router/builder/single.rs lines 44-46).  Per the source doc
comment it automatically creates a `NewHandler` which copies the `Handler`,
so the recorded handler kind is `copyOf H`; the route configuration is the
builder's current extractor types, and the Rust return value is `()`. -/
def «to» (b : SingleRouteBuilder) (H : RustTy) : Route × Unit :=
  (⟨b.delegate, b.pathExtractor, b.queryStringExtractor, .copyOf H⟩, ())

/-- States of the Single-Route Builder Protocol: `Unbound` carries the
builder's current configuration; `Bound` is the terminal state after a
handler-binding operation. -/
inductive BuilderState where
  | Unbound (b : SingleRouteBuilder)
  | Bound
deriving DecidableEq, Repr

/-- The four operations of the protocol, each tagged with the Rust type
argument supplied at the call site. -/
inductive Op where
  | opTo (H : RustTy)
  | opToNewHandler (NH : RustTy)
  | opWithPathExtractor (T : RustTy)
  | opWithQueryStringExtractor (T : RustTy)
deriving DecidableEq, Repr

/-- One step of the protocol state machine.  `none` models a Rust
compile-time rejection: the operation is not defined at that state or its
trait bounds fail, so the call site does not type-check; it is never a
runtime failure. -/
def step : BuilderState → Op → Option BuilderState
  | .Unbound _, .opTo H =>
      if toBound H then some .Bound else none
  | .Unbound _, .opToNewHandler NH =>
      if to_new_handlerBound NH then some .Bound else none
  | .Unbound b, .opWithPathExtractor T =>
      if withPathExtractorBound T then some (.Unbound (with_path_extractor b T)) else none
  | .Unbound b, .opWithQueryStringExtractor T =>
      if withQueryStringExtractorBound T then some (.Unbound (with_query_string_extractor b T)) else none
  | .Bound, _ => none

/-- Affine-usage model of Rust move semantics: every operation of the trait
takes `self` by value, so invoking it on a live builder value removes that
value from the set of usable values; the substitution operations return a
fresh builder value in its place, the binding operations return `()`.
`none` models the compile-time rejection of a call on a moved-from value. -/
def applyOp (live : Finset Nat) (receiver fresh : Nat) (op : Op) : Option (Finset Nat) :=
  if receiver ∈ live then
    match op with
    | .opTo _ => some (live.erase receiver)
    | .opToNewHandler _ => some (live.erase receiver)
    | .opWithPathExtractor _ => some (insert fresh (live.erase receiver))
    | .opWithQueryStringExtractor _ => some (insert fresh (live.erase receiver))
  else none

/-- A concrete admissible handler type for witnesses: implements `Handler`
and is `Copy + Send + Sync + 'static`. -/
def myHandler : RustTy :=
  ⟨"MyHandler", false, false, true, false, true, true, true, true⟩

/-- A concrete admissible factory type for witnesses: implements
`NewHandler` (hence `Send + Sync`) and is `'static`. -/
def myNewHandler : RustTy :=
  ⟨"MyNewHandler", false, false, false, true, false, true, true, true⟩

/-- A concrete admissible path-extractor type for witnesses. -/
def myPathParams : RustTy :=
  ⟨"MyPathParams", true, false, false, false, false, true, true, true⟩

/-- A concrete admissible query-string-extractor type for witnesses. -/
def myQueryParams : RustTy :=
  ⟨"MyQueryParams", false, true, false, false, false, true, true, true⟩

/-- Helper: the definedness of a bound-gated operation is exactly its bound. -/
theorem isSome_if {α : Type} (c : Bool) (x : α) :
    (if c then some x else none).isSome = c := by
  cases c <;> rfl

/-- C1: once a handler-binding operation (`to` or `to_new_handler`) has been
applied to a builder, the builder is consumed: whenever either binding
operation is defined, the resulting state is the terminal `Bound` state, and
no operation of the protocol is defined from `Bound` (`step` yields `none`,
which models a construction-time/compile-time rejection, never a runtime
failure), so no further binding or substitution can ever be invoked. -/
theorem binding_consumes_and_bound_is_terminal
    (b : SingleRouteBuilder) (H NH : RustTy) (s t : BuilderState)
    (hTo : step (.Unbound b) (.opTo H) = some s)
    (hNew : step (.Unbound b) (.opToNewHandler NH) = some t) :
    s = .Bound ∧ t = .Bound ∧ ∀ (op : Op), step .Bound op = none := by
  refine ⟨?_, ?_, fun op => by cases op <;> rfl⟩
  · by_cases h : toBound H
    · simp only [step, h, if_true, Option.some_inj] at hTo
      exact hTo.symm
    · simp [step, h] at hTo
  · by_cases h : to_new_handlerBound NH
    · simp only [step, h, if_true, Option.some_inj] at hNew
      exact hNew.symm
    · simp [step, h] at hNew

/-- Witness for C1 at a concrete admissible handler and factory. -/
theorem binding_consumes_and_bound_is_terminal_witness :
    step (.Unbound (newBuilder 0)) (.opTo myHandler) = some .Bound
      ∧ step (.Unbound (newBuilder 0)) (.opToNewHandler myNewHandler) = some .Bound
      ∧ (BuilderState.Bound = .Bound ∧ BuilderState.Bound = .Bound
          ∧ ∀ (op : Op), step .Bound op = none) :=
  ⟨rfl, rfl,
    binding_consumes_and_bound_is_terminal (newBuilder 0) myHandler myNewHandler
      .Bound .Bound rfl rfl⟩

/-- C2: `to_new_handler` accepts exactly the types satisfying the factory
capability (`NewHandler`, which carries `Send + Sync`), together with the
`'static` (outlives-the-router) requirement: the operation is defined on a
builder if and only if all of these hold. -/
theorem to_new_handler_accepts_exactly (b : SingleRouteBuilder) (NH : RustTy) :
    (step (.Unbound b) (.opToNewHandler NH)).isSome
      = (NH.newHandlerTr && NH.sendTr && NH.syncTr && NH.staticLt) := by
  simp only [step]
  rw [isSome_if]
  simp [to_new_handlerBound, NewHandlerCap, Bool.and_assoc]

/-- C3: substitution is frame-preserving: on any unbound builder, an
admissible path-extractor substitution yields the builder with the new path
extractor and the query-string extractor and delegate handle untouched, and
symmetrically for a query-string-extractor substitution. -/
theorem with_extractor_frame (b : SingleRouteBuilder) (P Q : RustTy)
    (hp : withPathExtractorBound P = true)
    (hq : withQueryStringExtractorBound Q = true) :
    step (.Unbound b) (.opWithPathExtractor P)
        = some (.Unbound ⟨b.delegate, P, b.queryStringExtractor⟩)
      ∧ step (.Unbound b) (.opWithQueryStringExtractor Q)
        = some (.Unbound ⟨b.delegate, b.pathExtractor, Q⟩) := by
  obtain ⟨d, pe, qe⟩ := b
  exact ⟨by simp [step, hp, with_path_extractor],
         by simp [step, hq, with_query_string_extractor]⟩

/-- Witness for C3 at the default builder and concrete extractor types. -/
theorem with_extractor_frame_witness :
    withPathExtractorBound myPathParams = true
      ∧ withQueryStringExtractorBound myQueryParams = true
      ∧ step (.Unbound (newBuilder 0)) (.opWithPathExtractor myPathParams)
          = some (.Unbound ⟨0, myPathParams, NoopQueryStringExtractor⟩) :=
  ⟨rfl, rfl,
    (with_extractor_frame (newBuilder 0) myPathParams myQueryParams rfl rfl).1⟩

/-- C4: the two substitution operations commute: substituting the path
extractor and then the query-string extractor gives the same builder as the
two substitutions in the other order, and binding the two results with the
same handler (via `to` or via `to_new_handler`) produces identical routes. -/
theorem extractor_substitution_commutes (b : SingleRouteBuilder) (P Q H NH : RustTy) :
    with_query_string_extractor (with_path_extractor b P) Q
        = with_path_extractor (with_query_string_extractor b Q) P
      ∧ «to» (with_query_string_extractor (with_path_extractor b P) Q) H
        = «to» (with_path_extractor (with_query_string_extractor b Q) P) H
      ∧ to_new_handler (with_query_string_extractor (with_path_extractor b P) Q) NH
        = to_new_handler (with_path_extractor (with_query_string_extractor b Q) P) NH :=
  ⟨rfl, rfl, rfl⟩

/-- C5: repeating a substitution operation wholly replaces the previously
chosen extractor type for that slot, with no accumulation: substituting T1
and then T2 yields exactly the builder obtained by substituting T2 alone. -/
theorem substitution_replaces_previous (b : SingleRouteBuilder) (T1 T2 : RustTy) :
    with_path_extractor (with_path_extractor b T1) T2 = with_path_extractor b T2
      ∧ with_query_string_extractor (with_query_string_extractor b T1) T2
        = with_query_string_extractor b T2 :=
  ⟨rfl, rfl⟩

/-- C6: `to` and `to_new_handler` have the identical externally observable
effect on route configuration: each records the builder's current path and
query-string extractor types and delegate handle into the finalized route,
returns `()` to the caller, and (whenever defined) moves the protocol to the
terminal `Bound` state; they differ only in the handler-instantiation
semantics recorded on the route (a per-request copy versus a factory). -/
theorem binding_ops_identical_route_configuration
    (b : SingleRouteBuilder) (H NH : RustTy) :
    («to» b H).1.pathExtractor = b.pathExtractor
      ∧ («to» b H).1.queryStringExtractor = b.queryStringExtractor
      ∧ («to» b H).1.delegate = b.delegate
      ∧ (to_new_handler b NH).1.pathExtractor = b.pathExtractor
      ∧ (to_new_handler b NH).1.queryStringExtractor = b.queryStringExtractor
      ∧ (to_new_handler b NH).1.delegate = b.delegate
      ∧ («to» b H).2 = () ∧ (to_new_handler b NH).2 = ()
      ∧ («to» b H).1.handlerKind = .copyOf H
      ∧ (to_new_handler b NH).1.handlerKind = .factory NH
      ∧ (step (.Unbound b) (.opTo H)).all (fun s => decide (s = .Bound)) = true
      ∧ (step (.Unbound b) (.opToNewHandler NH)).all (fun s => decide (s = .Bound)) = true := by
  refine ⟨rfl, rfl, rfl, rfl, rfl, rfl, rfl, rfl, rfl, rfl, ?_, ?_⟩
  · by_cases h : toBound H <;> simp [step, h]
  · by_cases h : to_new_handlerBound NH <;> simp [step, h]

/-- C7: substitution never produces a dead-end builder: on the builder
returned by an admissible path or query-string substitution, each of the
four protocol operations is again defined exactly under its own trait
bound, so `to`, `to_new_handler` and both substitutions all remain
available. -/
theorem substitution_result_supports_protocol (b : SingleRouteBuilder) (P Q : RustTy)
    (hp : withPathExtractorBound P = true)
    (hq : withQueryStringExtractorBound Q = true) :
    ∀ (H NH T : RustTy),
      ((step (.Unbound (with_path_extractor b P)) (.opTo H)).isSome = toBound H
        ∧ (step (.Unbound (with_path_extractor b P)) (.opToNewHandler NH)).isSome
            = to_new_handlerBound NH
        ∧ (step (.Unbound (with_path_extractor b P)) (.opWithPathExtractor T)).isSome
            = withPathExtractorBound T
        ∧ (step (.Unbound (with_path_extractor b P)) (.opWithQueryStringExtractor T)).isSome
            = withQueryStringExtractorBound T)
      ∧ ((step (.Unbound (with_query_string_extractor b Q)) (.opTo H)).isSome = toBound H
        ∧ (step (.Unbound (with_query_string_extractor b Q)) (.opToNewHandler NH)).isSome
            = to_new_handlerBound NH
        ∧ (step (.Unbound (with_query_string_extractor b Q)) (.opWithPathExtractor T)).isSome
            = withPathExtractorBound T
        ∧ (step (.Unbound (with_query_string_extractor b Q)) (.opWithQueryStringExtractor T)).isSome
            = withQueryStringExtractorBound T) := by
  intro H NH T
  refine ⟨⟨?_, ?_, ?_, ?_⟩, ⟨?_, ?_, ?_, ?_⟩⟩ <;>
    · simp only [step]
      rw [isSome_if]

/-- Witness for C7 at concrete admissible types. -/
theorem substitution_result_supports_protocol_witness :
    withPathExtractorBound myPathParams = true
      ∧ withQueryStringExtractorBound myQueryParams = true
      ∧ (step (.Unbound (with_path_extractor (newBuilder 0) myPathParams))
            (.opTo myHandler)).isSome = toBound myHandler :=
  ⟨rfl, rfl,
    ((substitution_result_supports_protocol (newBuilder 0) myPathParams myQueryParams
        rfl rfl myHandler myNewHandler myQueryParams).1).1⟩

/-- C8: `to` accepts exactly the types satisfying all four requirements of
its trait bound — the `Handler` capability, `Copy` (duplicable, so each
dispatched request receives an independent copy), `Send + Sync` (safely
shareable across threads) and `'static` (outlives the router) — and the
route it finalizes records the per-request-copy instantiation of the
supplied handler. -/
theorem to_accepts_exactly (b : SingleRouteBuilder) (H : RustTy) :
    (step (.Unbound b) (.opTo H)).isSome
        = (H.handlerTr && H.copyTr && H.sendTr && H.syncTr && H.staticLt)
      ∧ («to» b H).1.handlerKind = .copyOf H := by
  refine ⟨?_, rfl⟩
  simp only [step]
  rw [isSome_if]
  rfl

/-- C9: each substitution operation is defined exactly under its own trait
bound: `with_path_extractor` requires the `PathExtractor` capability plus
`Send + Sync + 'static`, and `with_query_string_extractor` requires the
`QueryStringExtractor` capability plus `Send + Sync + 'static`. -/
theorem substitution_accepts_exactly (b : SingleRouteBuilder) (T : RustTy) :
    (step (.Unbound b) (.opWithPathExtractor T)).isSome
        = (T.pathExt && T.sendTr && T.syncTr && T.staticLt)
      ∧ (step (.Unbound b) (.opWithQueryStringExtractor T)).isSome
        = (T.queryExt && T.sendTr && T.syncTr && T.staticLt) := by
  constructor <;>
    · simp only [step]
      rw [isSome_if]
      rfl

/-- C10: every protocol operation takes the builder receiver by value and
consumes it: in the affine-usage model, whenever an operation applies to a
live builder value, that value is absent from the resulting live set (the
substitutions leave only a fresh builder value in its place), so no builder
value can ever have two operations invoked on it. -/
theorem every_operation_consumes_receiver
    (live : Finset Nat) (receiver fresh : Nat) (op : Op) (live' : Finset Nat)
    (hfresh : fresh ∉ live)
    (happ : applyOp live receiver fresh op = some live') :
    receiver ∉ live' := by
  unfold applyOp at happ
  by_cases hin : receiver ∈ live
  · have hne : fresh ≠ receiver := fun h => hfresh (h ▸ hin)
    simp only [hin, if_true] at happ
    cases op <;>
      simp only [Option.some_inj] at happ <;>
      subst happ <;>
      simp [Finset.mem_insert, Finset.not_mem_erase, hne.symm]
  · simp [hin] at happ

/-- Witness for C10: using the single live builder value 0 with a
substitution renders 0 unusable afterwards. -/
theorem every_operation_consumes_receiver_witness :
    (1 : Nat) ∉ ({0} : Finset Nat)
      ∧ applyOp {0} 0 1 (.opWithPathExtractor myPathParams) = some {1}
      ∧ (0 : Nat) ∉ ({1} : Finset Nat) := by
  refine ⟨by decide, by decide, ?_⟩
  exact every_operation_consumes_receiver {0} 0 1 (.opWithPathExtractor myPathParams) {1}
    (by decide) (by decide)

end Gotham
